import Mathlib

/-!
Shallow embedding of the dashboard-deletion subsystem of the `sdm` CLI
(`signoz_cli`): the pattern matcher, identifier resolver, confirmation
gate, bulk executor and result reporter found in
`signoz_cli/cli/commands.py` (`Commands.delete_dashboards`),
`signoz_cli/api/client.py` (`SignozAPI.delete_dashboard`) and the `rm`
branch of `signoz_cli/__main__.py` (`main`).
-/

namespace Sdm

/-- Regular expressions, modelling the fragment of Python `re` that the
CLI's glob-translated title patterns exercise: literal characters, `.`,
and the postfix repeaters `*`, `+`, `?`.  `alt` appears as the derivative
of `seq` and as the encoding of `?`. -/
inductive Regex where
  | emp : Regex
  | eps : Regex
  | chr : Char → Regex
  | dot : Regex
  | seq : Regex → Regex → Regex
  | alt : Regex → Regex → Regex
  | star : Regex → Regex
deriving Repr, DecidableEq

/-- Whether the regex accepts the empty string. -/
def nullable : Regex → Bool
  | Regex.emp => false
  | Regex.eps => true
  | Regex.chr _ => false
  | Regex.dot => false
  | Regex.seq r s => nullable r && nullable s
  | Regex.alt r s => nullable r || nullable s
  | Regex.star _ => true

/-- Brzozowski derivative.  Character comparison is case-insensitive,
modelling the `re.IGNORECASE` flag the CLI always passes; `.` matches any
character except a newline, as in Python without `DOTALL`. -/
def rderiv : Regex → Char → Regex
  | Regex.emp, _ => Regex.emp
  | Regex.eps, _ => Regex.emp
  | Regex.chr d, c => if d.toLower = c.toLower then Regex.eps else Regex.emp
  | Regex.dot, c => if c = '\n' then Regex.emp else Regex.eps
  | Regex.seq r s, c =>
      if nullable r then Regex.alt (Regex.seq (rderiv r c) s) (rderiv s c)
      else Regex.seq (rderiv r c) s
  | Regex.alt r s, c => Regex.alt (rderiv r c) (rderiv s c)
  | Regex.star r, c => Regex.seq (rderiv r c) (Regex.star r)

/-- Does the regex match some prefix of the character list?  This is what
a Python regex does when tried at one start position. -/
def matchesFromStart (r : Regex) : List Char → Bool
  | [] => nullable r
  | c :: cs => nullable r || matchesFromStart (rderiv r c) cs

/-- Try every start position, leftmost first: `re.search` semantics
(substring search), as opposed to `re.fullmatch`. -/
def searchChars (r : Regex) : List Char → Bool
  | [] => matchesFromStart r []
  | c :: cs => matchesFromStart r (c :: cs) || searchChars r cs

/-- Model of `regex.search(s)` under `re.IGNORECASE`, as a Boolean. -/
def reSearch (r : Regex) (s : String) : Bool :=
  searchChars r s.toList

/-- Model of `pattern.replace('*', '.*')` on the character list:
every `*` becomes the two characters `.` `*`. -/
def globChars : List Char → List Char
  | [] => []
  | c :: cs => if c = '*' then '.' :: '*' :: globChars cs else c :: globChars cs

/-- The glob-to-regex translation performed by `Commands.delete_dashboards`
before compiling: `pattern.replace('*', '.*')`. -/
def globTranslate (p : String) : String :=
  String.mk (globChars p.toList)

/-- Characters outside the modelled `re` fragment.  Patterns using them
are modelled as failing to compile (for `[`, `(`, `)`, a lone `\` and
friends this agrees with Python's `re.error`). -/
def isUnsupported (c : Char) : Bool :=
  c = '[' || c = ']' || c = '(' || c = ')' || c = '|' || c = '\\' ||
  c = '^' || c = '$' || c = '\x7b' || c = '\x7d'

/-- One pass of the pattern compiler.  The accumulator holds the atoms
parsed so far, most recent first, so that a postfix repeater can attach
to the previous atom; a repeater with no preceding atom is a compile
error ("nothing to repeat"), as is repeating a repeat. -/
def compileAux : List Char → List Regex → Option (List Regex)
  | [], acc => some acc
  | c :: cs, acc =>
    if c = '.' then compileAux cs (Regex.dot :: acc)
    else if c = '*' then
      match acc with
      | [] => none
      | Regex.star _ :: _ => none
      | a :: rest => compileAux cs (Regex.star a :: rest)
    else if c = '+' then
      match acc with
      | [] => none
      | Regex.star _ :: _ => none
      | a :: rest => compileAux cs (Regex.seq a (Regex.star a) :: rest)
    else if c = '?' then
      match acc with
      | [] => none
      | a :: rest => compileAux cs (Regex.alt a Regex.eps :: rest)
    else if isUnsupported c then none
    else compileAux cs (Regex.chr c :: acc)

/-- Sequence a list of atoms, in order. -/
def seqAll : List Regex → Regex
  | [] => Regex.eps
  | r :: rs => Regex.seq r (seqAll rs)

/-- Model of `re.compile(pattern, re.IGNORECASE)`: `none` models an
`re.error` being raised. -/
def compileRegex (p : String) : Option Regex :=
  (compileAux p.toList []).map (fun acc => seqAll acc.reverse)

/-- Console messages, tagged by the `UI` helper that emits them
(`print_success` / `print_error` / `print_warning` / `print_info`). -/
inductive Msg where
  | success : String → Msg
  | error : String → Msg
  | warning : String → Msg
  | info : String → Msg
deriving Repr, DecidableEq

/-- A dashboard as seen by the deletion path: its `uuid` and its
`data.title` field, `none` when the payload lacks the field. -/
structure Dashboard where
  uuid : String
  title : Option String
deriving Repr, DecidableEq

/-- Observable outcome of one `SignozAPI.delete_dashboard` call:
`ok` models `return True` (HTTP 200/204); `no` models `return False`
(a non-error status other than 200/204 with a JSON body); `err` models
an exception being raised. -/
inductive DelResult where
  | ok : DelResult
  | no : DelResult
  | err : String → DelResult
deriving Repr, DecidableEq

/-- The API collaborator as the deletion path consumes it:
`list_dashboards` (which may raise) and `delete_dashboard`. -/
structure Api where
  listing : Except String (List Dashboard)
  del : String → DelResult

/-- The title string the matcher sees:
`dashboard.get('data', {}).get('title', '')`. -/
def titleOf (d : Dashboard) : String :=
  d.title.getD ("")

/-- Outcome of the UUID-collection phase of `delete_dashboards`:
collected uuids, printed messages, and whether the whole command was
aborted (the `return` on an invalid pattern in non-force mode). -/
structure Collect where
  uuids : List String
  msgs : List Msg
  aborted : Bool
deriving Repr, DecidableEq

/-- The `by_title` collection loop of `Commands.delete_dashboards`
(commands.py lines 66-83): per pattern, glob-translate, compile
case-insensitively, keep the uuids of dashboards whose title the regex
search-matches; warn when a pattern matches nothing; on a compile error
print an error and, unless forced, return from the whole command. -/
def collectByTitle (all : List Dashboard) (force : Bool) : List String → Collect
  | [] => ⟨[], [], false⟩
  | p :: ps =>
    match compileRegex (globTranslate p) with
    | some r =>
      let ms := (all.filter (fun d => reSearch r (titleOf d))).map Dashboard.uuid
      let rest := collectByTitle all force ps
      if ms.isEmpty then
        ⟨rest.uuids, Msg.warning ("No dashboards found matching pattern: " ++ p) :: rest.msgs,
          rest.aborted⟩
      else
        ⟨ms ++ rest.uuids, rest.msgs, rest.aborted⟩
    | none =>
      if force then
        let rest := collectByTitle all force ps
        ⟨rest.uuids, Msg.error ("Invalid pattern: " ++ p) :: rest.msgs, rest.aborted⟩
      else
        ⟨[], [Msg.error ("Invalid pattern: " ++ p)], true⟩

/-- Mode dispatch of the collection phase (commands.py lines 63-85):
`remove_all` takes precedence over `by_title`; otherwise the explicit
identifiers are taken verbatim. -/
def collectUuids (all : List Dashboard) (identifiers : List String)
    (by_title remove_all force : Bool) : Collect :=
  if remove_all then ⟨all.map Dashboard.uuid, [], false⟩
  else if by_title then collectByTitle all force identifiers
  else ⟨identifiers, [], false⟩

/-- Helper for `dedupFirst`: keep elements not seen before. -/
def dedupAux (seen : List String) : List String → List String
  | [] => []
  | x :: xs => if x ∈ seen then dedupAux seen xs else x :: dedupAux (x :: seen) xs

/-- Model of `list(dict.fromkeys(uuids))`: drop duplicates, keeping the
first occurrence of each element, preserving first-seen order. -/
def dedupFirst (l : List String) : List String :=
  dedupAux [] l

/-- Result of the bulk deletion loop (commands.py lines 122-138):
success count, failed uuids, the uuids actually passed to
`api.delete_dashboard` in order, and the per-item messages printed. -/
structure BulkResult where
  succeeded : Nat
  failed : List String
  calls : List String
  msgs : List Msg
deriving Repr, DecidableEq

/-- The bulk deletion loop: one `delete_dashboard` call per uuid, in
order.  `ok` bumps the success count and prints a success line; an
exception prints an error line and records the uuid in the failed list;
a plain `False` return does neither. -/
def executeBulk (del : String → DelResult) : List String → BulkResult
  | [] => ⟨0, [], [], []⟩
  | u :: us =>
    let rest := executeBulk del us
    match del u with
    | DelResult.ok =>
        ⟨rest.succeeded + 1, rest.failed, u :: rest.calls,
          Msg.success ("Deleted dashboard: " ++ u) :: rest.msgs⟩
    | DelResult.no =>
        ⟨rest.succeeded, rest.failed, u :: rest.calls, rest.msgs⟩
    | DelResult.err e =>
        ⟨rest.succeeded, u :: rest.failed, u :: rest.calls,
          Msg.error ((("Failed to delete dashboard " ++ u) ++ ": ") ++ e) :: rest.msgs⟩

/-- The pre-deletion listing rendered in pattern/all mode
(commands.py lines 100-106): one info line per dashboard of the listing
whose uuid is among the targets, in listing order, with `Untitled`
substituted for a missing title. -/
def renderLines (all : List Dashboard) (unique : List String) : List Msg :=
  (all.filter (fun d => d.uuid ∈ unique)).map
    (fun d => Msg.info (((("  - " ++ d.title.getD ("Untitled")) ++ " (") ++ d.uuid) ++ ")"))

/-- The summary printed after the loop (commands.py lines 140-147):
a warning listing the failures when any exist, a success line otherwise. -/
def summaryMsg (succ total : Nat) (failed : List String) : Msg :=
  if failed.isEmpty then
    Msg.success (("Successfully deleted " ++ toString succ) ++ " dashboards")
  else
    Msg.warning (((("Deleted " ++ toString succ) ++ " of ") ++ toString total)
      ++ (" dashboards. Failed: " ++ String.intercalate (", ") failed))

/-- The duplicate-count notice (commands.py lines 89-90): a warning with
the number of duplicates removed, printed only when deduplication
shrank the list. -/
def dupMsgs (raw unique : List String) : List Msg :=
  if unique.length < raw.length then
    [Msg.warning (("Found " ++ toString (raw.length - unique.length))
      ++ " duplicate dashboard UUIDs. Will process only unique UUIDs.")]
  else []

/-- The matched-list rendering step (commands.py line 99): shown only in
title-pattern or remove-all mode and only when not forced. -/
def showListMsgs (all : List Dashboard) (unique : List String)
    (force by_title remove_all : Bool) : List Msg :=
  if (by_title || remove_all) && !force then
    Msg.info ("Dashboards to delete:") :: renderLines all unique
  else []

/-- The confirmation question asked when not forced
(commands.py lines 109-120): the remove-all question or the standard
one; both go through the same yes/no `UI.confirm_action`. -/
def promptMsg (total : Nat) (remove_all : Bool) : String :=
  if remove_all then ("Are you absolutely sure?")
  else ("Are you sure you want to delete " ++ toString total) ++ " dashboards?"

/-- Full observable outcome of one `Commands.delete_dashboards` run:
printed messages in order, the confirmation questions asked, the uuids
passed to `delete_dashboard`, the loop's counters, and the process exit
status (`1` for `sys.exit(1)`, `0` for a normal return). -/
structure RunResult where
  log : List Msg
  prompts : List String
  deleteCalls : List String
  succeeded : Nat
  failed : List String
  exitCode : Nat
deriving Repr, DecidableEq

/-- Body of `Commands.delete_dashboards` after a successful listing fetch
(commands.py lines 60-147): collect, deduplicate, maybe render and
confirm, then run the bulk loop and print a summary.  `answers` is the
stream of yes/no replies the user would give to `UI.confirm_action`; at
most one is consumed. -/
def runOk (delf : String → DelResult) (all : List Dashboard) (identifiers : List String)
    (force by_title remove_all : Bool) (answers : List Bool) : RunResult :=
  let col := collectUuids all identifiers by_title remove_all force
  if col.aborted then ⟨col.msgs, [], [], 0, [], 0⟩
  else
    let unique := dedupFirst col.uuids
    let pre1 := col.msgs ++ dupMsgs col.uuids unique
    if unique.isEmpty then
      ⟨pre1 ++ [Msg.warning ("No dashboards found to delete")], [], [], 0, [], 0⟩
    else
      let pre2 := pre1 ++ showListMsgs all unique force by_title remove_all
      if force then
        let b := executeBulk delf unique
        ⟨pre2 ++ b.msgs ++ [summaryMsg b.succeeded unique.length b.failed],
          [], b.calls, b.succeeded, b.failed, 0⟩
      else
        let extraWarn :=
          if remove_all then
            [Msg.warning (("You are about to remove ALL " ++ toString unique.length)
               ++ " dashboards!"),
             Msg.warning ("This action cannot be undone.")]
          else []
        let q := promptMsg unique.length remove_all
        if answers.getD 0 false then
          let b := executeBulk delf unique
          ⟨pre2 ++ extraWarn ++ b.msgs ++ [summaryMsg b.succeeded unique.length b.failed],
            [q], b.calls, b.succeeded, b.failed, 0⟩
        else
          ⟨pre2 ++ extraWarn ++ [Msg.info ("Operation cancelled")], [q], [], 0, [], 0⟩

/-- Model of `Commands.delete_dashboards` (commands.py lines 53-150).
A failure of `list_dashboards` is caught by the outer handler, printed,
and exits with status 1; every other path returns normally (status 0). -/
def delete_dashboards (api : Api) (identifiers : List String)
    (force by_title remove_all : Bool) (answers : List Bool) : RunResult :=
  match api.listing with
  | Except.error e => ⟨[Msg.error e], [], [], 0, [], 1⟩
  | Except.ok all => runOk api.del all identifiers force by_title remove_all answers

/-- Parameter names of `Commands.delete_dashboards`, from its `def` line
(commands.py line 54). -/
def deleteDashboardsParams : List String :=
  ["api", "identifiers", "force", "by_title", "remove_all"]

/-- Keyword arguments used at the call site in `main`'s `rm` branch
(`__main__.py` line 88). -/
def rmCallKwargs : List String :=
  ["force", "by_title", "remove_all", "skip_errors"]

/-- Python call binding: the call raises `TypeError` before the callee's
body runs exactly when some keyword is not a parameter name. -/
def rmCallBinds : Bool :=
  rmCallKwargs.all (fun k => deleteDashboardsParams.contains k)

/-- Observable outcome of `main` handling the `rm` command:
`invokedDelete` records whether the body of `delete_dashboards` ever ran
(and hence whether the dashboard listing was fetched). -/
structure MainResult where
  log : List Msg
  prompts : List String
  deleteCalls : List String
  invokedDelete : Bool
  exitCode : Nat
deriving Repr, DecidableEq

/-- Model of the `rm` branch of `main` (`__main__.py` lines 76-89):
usage check, token check, then the call to `delete_dashboards` whose
keyword arguments must bind; an unexpected keyword raises `TypeError`,
which the surrounding handler reports and turns into exit status 1. -/
def mainRm (api : Api) (args : List String) (hasToken : Bool)
    (yes title all : Bool) (answers : List Bool) : MainResult :=
  if args.isEmpty && !all then
    ⟨[Msg.error ("Please provide at least one dashboard UUID/pattern or use --all to remove all dashboards")],
      [], [], false, 1⟩
  else if !hasToken then
    ⟨[Msg.error ("No token found. Please login first or provide a token.")], [], [], false, 1⟩
  else if rmCallBinds then
    let r := delete_dashboards api args yes title all answers
    ⟨r.log, r.prompts, r.deleteCalls, true, r.exitCode⟩
  else
    ⟨[Msg.error ("An unexpected error occurred: TypeError")], [], [], false, 1⟩

/-! Helper lemmas. -/

theorem executeBulk_calls (del : String → DelResult) (l : List String) :
    (executeBulk del l).calls = l := by
  induction l with
  | nil => rfl
  | cons u us ih =>
    simp only [executeBulk]
    cases del u <;> simp [ih]

theorem mem_dedupAux (x : String) (l : List String) : ∀ seen : List String,
    x ∈ dedupAux seen l ↔ x ∈ l ∧ x ∉ seen := by
  induction l with
  | nil => intro seen; simp [dedupAux]
  | cons y ys ih =>
    intro seen
    simp only [dedupAux]
    by_cases hy : y ∈ seen
    · rw [if_pos hy, ih]
      constructor
      · rintro ⟨hx, hns⟩
        exact ⟨List.mem_cons_of_mem _ hx, hns⟩
      · rintro ⟨hx, hns⟩
        rcases List.mem_cons.mp hx with rfl | hx
        · exact absurd hy hns
        · exact ⟨hx, hns⟩
    · rw [if_neg hy]
      constructor
      · intro hx
        rcases List.mem_cons.mp hx with rfl | hx
        · exact ⟨List.mem_cons_self _ _, hy⟩
        · rcases (ih (y :: seen)).mp hx with ⟨hmem, hns⟩
          refine ⟨List.mem_cons_of_mem _ hmem, fun hc => hns (List.mem_cons_of_mem _ hc)⟩
      · rintro ⟨hx, hns⟩
        rcases List.mem_cons.mp hx with rfl | hx
        · exact List.mem_cons_self _ _
        · by_cases hxy : x = y
          · subst hxy; exact List.mem_cons_self _ _
          · exact List.mem_cons_of_mem _ ((ih (y :: seen)).mpr
              ⟨hx, fun hc => (List.mem_cons.mp hc).elim hxy hns⟩)

theorem mem_dedupFirst (x : String) (l : List String) :
    x ∈ dedupFirst l ↔ x ∈ l := by
  unfold dedupFirst
  rw [mem_dedupAux]
  simp

theorem dedupAux_nodup (l : List String) : ∀ seen : List String,
    (dedupAux seen l).Nodup := by
  induction l with
  | nil => intro seen; simp [dedupAux]
  | cons y ys ih =>
    intro seen
    simp only [dedupAux]
    by_cases hy : y ∈ seen
    · rw [if_pos hy]; exact ih seen
    · rw [if_neg hy]
      refine List.nodup_cons.mpr ⟨fun hc => ?_, ih (y :: seen)⟩
      exact ((mem_dedupAux y ys (y :: seen)).mp hc).2 (List.mem_cons_self _ _)

theorem dedupAux_sublist (l : List String) : ∀ seen : List String,
    (dedupAux seen l).Sublist l := by
  induction l with
  | nil => intro seen; simp [dedupAux]
  | cons y ys ih =>
    intro seen
    simp only [dedupAux]
    by_cases hy : y ∈ seen
    · rw [if_pos hy]; exact (ih seen).cons y
    · rw [if_neg hy]; exact (ih (y :: seen)).cons₂ y

theorem dedupFirst_cons (x : String) (xs : List String) :
    dedupFirst (x :: xs) = x :: dedupAux [x] xs := by
  simp [dedupFirst, dedupAux]

theorem dedupFirst_ne_nil (l : List String) (h : l ≠ []) : dedupFirst l ≠ [] := by
  cases l with
  | nil => exact absurd rfl h
  | cons x xs => rw [dedupFirst_cons]; exact List.cons_ne_nil _ _

theorem collectByTitle_force_no_abort (all : List Dashboard) (ps : List String) :
    (collectByTitle all true ps).aborted = false := by
  induction ps with
  | nil => rfl
  | cons p ps ih =>
    simp only [collectByTitle]
    cases compileRegex (globTranslate p) with
    | none => simpa using ih
    | some r =>
      by_cases hm : ((all.filter (fun d => reSearch r (titleOf d))).map Dashboard.uuid).isEmpty
      <;> simp [hm, ih]

theorem collectUuids_force_no_abort (all : List Dashboard) (identifiers : List String)
    (by_title remove_all : Bool) :
    (collectUuids all identifiers by_title remove_all true).aborted = false := by
  unfold collectUuids
  cases remove_all
  · cases by_title
    · rfl
    · simpa using collectByTitle_force_no_abort all identifiers
  · rfl

theorem collectByTitle_abort_of_invalid (all : List Dashboard) (p : String)
    (h : compileRegex (globTranslate p) = none) (post : List String) :
    ∀ pre : List String, (collectByTitle all false (pre ++ p :: post)).aborted = true := by
  intro pre
  induction pre with
  | nil =>
    simp only [List.nil_append, collectByTitle, h]
    rfl
  | cons q qs ih =>
    simp only [List.cons_append, collectByTitle]
    cases compileRegex (globTranslate q) with
    | none => rfl
    | some r =>
      by_cases hm : ((all.filter (fun d => reSearch r (titleOf d))).map Dashboard.uuid).isEmpty
      <;> simp [hm, ih]

theorem reSearch_empty (r : Regex) : reSearch r ("") = nullable r := rfl

theorem delete_dashboards_ok (api : Api) (all : List Dashboard)
    (h : api.listing = Except.ok all) (identifiers : List String)
    (force by_title remove_all : Bool) (answers : List Bool) :
    delete_dashboards api identifiers force by_title remove_all answers
      = runOk api.del all identifiers force by_title remove_all answers := by
  unfold delete_dashboards
  rw [h]

theorem runOk_exitCode (delf : String → DelResult) (all : List Dashboard)
    (identifiers : List String) (force by_title remove_all : Bool) (answers : List Bool) :
    (runOk delf all identifiers force by_title remove_all answers).exitCode = 0 := by
  unfold runOk
  dsimp only
  repeat' split
  all_goals rfl

/-! Concrete fixtures used by the claim theorems and their witnesses. -/

/-- An API whose listing is empty; its delete always succeeds. -/
def emptyApi : Api := ⟨Except.ok [], fun _ => DelResult.ok⟩

/-- A one-dashboard API whose delete always raises. -/
def failApi : Api := ⟨Except.ok [⟨"x", some ("T")⟩], fun _ => DelResult.err ("boom")⟩

/-- An API whose listing fetch raises. -/
def errApi : Api := ⟨Except.error ("Failed to list dashboards: boom"), fun _ => DelResult.ok⟩

/-- A delete function that fails on `y` and succeeds elsewhere. -/
def midFailDel : String → DelResult :=
  fun u => if u = "y" then DelResult.err ("net down") else DelResult.ok

/-! Claim theorems. -/

/-- Claim C2 (confirmed): every `rm` invocation that passes `main`'s usage
and token checks reaches the `delete_dashboards` call, whose keyword
argument `skip_errors` is not among the function's parameters; the call
therefore raises `TypeError` before the body runs — no listing fetch, no
confirmation prompt, no delete call — and the handler exits with
status 1. -/
theorem c2_rm_skip_errors_typeerror (api : Api) (args : List String)
    (yes title all : Bool) (answers : List Bool)
    (hargs : args = [] → all = true) :
    ("skip_errors" ∉ deleteDashboardsParams) ∧
    mainRm api args true yes title all answers =
      ⟨[Msg.error ("An unexpected error occurred: TypeError")], [], [], false, 1⟩ := by
  refine ⟨by decide, ?_⟩
  unfold mainRm
  have hb : rmCallBinds = false := by decide
  rw [hb]
  cases args with
  | nil =>
    have := hargs rfl
    subst this
    simp
  | cons a as => simp

/-- Witness for C2 at a concrete invocation: `rm u1`. -/
theorem c2_witness :
    ("skip_errors" ∉ deleteDashboardsParams) ∧
    mainRm emptyApi ["u1"] true false false false [] =
      ⟨[Msg.error ("An unexpected error occurred: TypeError")], [], [], false, 1⟩ :=
  c2_rm_skip_errors_typeerror emptyApi ["u1"] false false false [] (fun h => nomatch h)

/-- Claim C3 is refuted as stated: a delete call that returns `False`
without raising (an HTTP status below 400 other than 200/204, with a
JSON body) is counted in neither `succeeded` nor `failed`, so
`succeeded + len(failed)` falls short of `len(targets)`. -/
theorem c3_counterexample :
    ¬ ((executeBulk (fun _ => DelResult.no) ["x"]).succeeded
        + (executeBulk (fun _ => DelResult.no) ["x"]).failed.length
        = (["x"] : List String).length) := by decide

/-- Claim C3 as amended: `succeeded + len(failed) == len(targets)` holds
whenever every delete call on a target either returns success or raises
(never returns a bare `False`). -/
theorem c3_accounting (del : String → DelResult) (targets : List String)
    (h : ∀ u ∈ targets, del u ≠ DelResult.no) :
    (executeBulk del targets).succeeded + (executeBulk del targets).failed.length
      = targets.length := by
  induction targets with
  | nil => rfl
  | cons u us ih =>
    have hu : del u ≠ DelResult.no := h u (List.mem_cons_self _ _)
    have ihs := ih (fun v hv => h v (List.mem_cons_of_mem _ hv))
    simp only [executeBulk]
    cases hdel : del u with
    | ok => simp only [List.length_cons]; omega
    | no => exact absurd hdel hu
    | err e => simp only [List.length_cons]; omega

/-- Witness for the amended C3 at a concrete input. -/
theorem c3_witness :
    (executeBulk (fun _ => DelResult.ok) ["x"]).succeeded
      + (executeBulk (fun _ => DelResult.ok) ["x"]).failed.length
      = (["x"] : List String).length :=
  c3_accounting (fun _ => DelResult.ok) ["x"] (by decide)

/-- Claim C4 is refuted as stated: a run in which a deletion failed still
exits with status 0 (the failure is only reported in a warning
summary). -/
theorem c4_counterexample :
    (delete_dashboards failApi ["x"] true false false []).failed = ["x"] ∧
    (delete_dashboards failApi ["x"] true false false []).exitCode = 0 := by decide

/-- Claim C4 as amended: `Commands.delete_dashboards` exits with status 1
exactly when fetching the dashboard listing raises; every other path —
including runs with failed deletions, a user decline, an invalid-pattern
abort in non-force mode, or an empty target set — returns with
status 0. -/
theorem c4_exit_codes (api : Api) (identifiers : List String)
    (force by_title remove_all : Bool) (answers : List Bool) :
    (∀ e, api.listing = Except.error e →
      (delete_dashboards api identifiers force by_title remove_all answers).exitCode = 1) ∧
    (∀ all, api.listing = Except.ok all →
      (delete_dashboards api identifiers force by_title remove_all answers).exitCode = 0) := by
  constructor
  · intro e h
    unfold delete_dashboards
    rw [h]
  · intro all h
    rw [delete_dashboards_ok api all h identifiers force by_title remove_all answers]
    exact runOk_exitCode api.del all identifiers force by_title remove_all answers

/-- Witness for the amended C4 at concrete inputs: a failed listing fetch
exits 1, a run with a failed deletion exits 0. -/
theorem c4_witness :
    (delete_dashboards errApi [] true false true []).exitCode = 1 ∧
    (delete_dashboards failApi ["x"] true false false []).exitCode = 0 :=
  ⟨(c4_exit_codes errApi [] true false true []).1 ("Failed to list dashboards: boom") rfl,
   (c4_exit_codes failApi ["x"] true false false []).2 [⟨"x", some ("T")⟩] rfl⟩

/-- Claim C6 (confirmed): the bulk loop is best-effort — every target is
passed to the delete function in order regardless of earlier failures,
and for targets `x, y, z` where deleting `y` raises, the outcome is two
successes with `y` alone in the failed list (its reason printed in the
error line), `z` still having been attempted. -/
theorem c6_isolation (del : String → DelResult) (targets : List String) (reason : String) :
    ((executeBulk del targets).calls = targets) ∧
    (del ("x") = DelResult.ok → del ("y") = DelResult.err reason → del ("z") = DelResult.ok →
      executeBulk del ["x", "y", "z"] =
        ⟨2, ["y"], ["x", "y", "z"],
          [Msg.success ("Deleted dashboard: x"),
           Msg.error ("Failed to delete dashboard y: " ++ reason),
           Msg.success ("Deleted dashboard: z")]⟩) := by
  refine ⟨executeBulk_calls del targets, fun h1 h2 h3 => ?_⟩
  simp only [executeBulk, h1, h2, h3]
  rfl

/-- Witness for C6 with a concrete delete function failing on `y`. -/
theorem c6_witness :
    executeBulk midFailDel ["x", "y", "z"] =
      ⟨2, ["y"], ["x", "y", "z"],
        [Msg.success ("Deleted dashboard: x"),
         Msg.error ("Failed to delete dashboard y: " ++ "net down"),
         Msg.success ("Deleted dashboard: z")]⟩ :=
  (c6_isolation midFailDel ["x", "y", "z"] ("net down")).2 (by decide) (by decide) (by decide)

/-- The spec's pattern-matching example listing. -/
def cpuListing : List Dashboard :=
  [⟨"u1", some ("CPU Usage")⟩, ⟨"u2", some ("Host Overview")⟩, ⟨"u3", some ("cpu-errors")⟩]

/-- The compiled regex of the glob-translated pattern `CPU.*`. -/
def cpuRegex : Regex := (compileRegex (globTranslate ("CPU.*"))).getD Regex.emp

/-- Claim C7 (confirmed): the matcher translates every `*` to `.*`,
compiles case-insensitively, and for a compiling pattern selects exactly
the dashboards whose title the regex search-matches (substring search,
not fullmatch); on the spec's example, `CPU.*` selects `CPU Usage` and
`cpu-errors` but not `Host Overview`, and the starless pattern `Usage`
still selects `CPU Usage` by substring. -/
theorem c7_pattern_matching :
    (∀ cs : List Char,
      globChars cs = cs.flatMap (fun c => if c = '*' then ['.', '*'] else [c])) ∧
    (∀ (p : String) (r : Regex) (all : List Dashboard) (force : Bool),
      compileRegex (globTranslate p) = some r →
      (collectByTitle all force [p]).uuids
        = (all.filter (fun d => reSearch r (titleOf d))).map Dashboard.uuid) ∧
    ((collectByTitle cpuListing true ["CPU.*"]).uuids = ["u1", "u3"]) ∧
    ((collectByTitle cpuListing true ["Usage"]).uuids = ["u1"]) := by
  refine ⟨?_, ?_, by decide, by decide⟩
  · intro cs
    induction cs with
    | nil => rfl
    | cons c cs ih =>
      simp only [globChars, List.flatMap_cons]
      by_cases h : c = '*' <;> simp [h, ih]
  · intro p r all force h
    simp only [collectByTitle, h]
    by_cases hm : ((all.filter (fun d => reSearch r (titleOf d))).map Dashboard.uuid).isEmpty
    · rw [if_pos hm]
      simp only [collectByTitle]
      exact (List.isEmpty_iff.mp hm).symm
    · rw [if_neg hm]
      simp [collectByTitle]

/-- Witness for C7: the general selection characterisation applied to the
concrete pattern `CPU.*` and the example listing. -/
theorem c7_witness :
    compileRegex (globTranslate ("CPU.*")) = some cpuRegex ∧
    (collectByTitle cpuListing true ["CPU.*"]).uuids
      = (cpuListing.filter (fun d => reSearch cpuRegex (titleOf d))).map Dashboard.uuid :=
  ⟨by decide, c7_pattern_matching.2.1 ("CPU.*") cpuRegex cpuListing true (by decide)⟩

/-- In the remove/by-title dispatch, title mode reaches the pattern
loop. -/
theorem collectUuids_by_title (all : List Dashboard) (identifiers : List String)
    (force : Bool) :
    collectUuids all identifiers true false force = collectByTitle all force identifiers := rfl

/-- A five-dashboard listing in which the pattern `ZZZ` matches
nothing. -/
def fiveList : List Dashboard :=
  [⟨"u1", some ("A")⟩, ⟨"u2", some ("B")⟩, ⟨"u3", some ("C")⟩,
   ⟨"u4", some ("D")⟩, ⟨"u5", some ("E")⟩]

/-- An API over `fiveList` whose delete always succeeds. -/
def fiveApi : Api := ⟨Except.ok fiveList, fun _ => DelResult.ok⟩

/-- Claim C9 (confirmed): when resolution yields no targets (and was not
aborted), the command prints the informational "No dashboards found to
delete" notice and returns successfully — no confirmation prompt, no
delete call, exit status 0. -/
theorem c9_no_targets (api : Api) (all : List Dashboard) (identifiers : List String)
    (force by_title remove_all : Bool) (answers : List Bool)
    (hlist : api.listing = Except.ok all)
    (hab : (collectUuids all identifiers by_title remove_all force).aborted = false)
    (hempty : (collectUuids all identifiers by_title remove_all force).uuids = []) :
    delete_dashboards api identifiers force by_title remove_all answers =
      ⟨(collectUuids all identifiers by_title remove_all force).msgs
          ++ [Msg.warning ("No dashboards found to delete")], [], [], 0, [], 0⟩ := by
  rw [delete_dashboards_ok api all hlist identifiers force by_title remove_all answers]
  unfold runOk
  dsimp only
  rw [hab, hempty]
  simp [dedupFirst, dedupAux, dupMsgs]

/-- Witness for C9: the spec's scenario — pattern `ZZZ` over a
five-dashboard listing, non-force mode. -/
theorem c9_witness :
    delete_dashboards fiveApi ["ZZZ"] false true false [] =
      ⟨(collectUuids fiveList ["ZZZ"] true false false).msgs
          ++ [Msg.warning ("No dashboards found to delete")], [], [], 0, [], 0⟩ :=
  c9_no_targets fiveApi fiveList ["ZZZ"] false true false [] rfl (by decide) (by decide)

/-- A dashboard whose payload has no `data.title` field. -/
def untitled : Dashboard := ⟨"u0", none⟩

/-- The compiled regex of the glob-translated pattern `*`. -/
def starRegex : Regex := (compileRegex (globTranslate ("*"))).getD Regex.emp

/-- Claim C10 (confirmed): a dashboard without a `data.title` field is
matched against the empty string, so a compiling pattern selects it
exactly when its regex accepts the empty string; concretely `*`
(translated to `.*`) selects the untitled dashboard and `a` does not. -/
theorem c10_untitled (p : String) (r : Regex) (d : Dashboard)
    (_hc : compileRegex (globTranslate p) = some r) (hd : d.title = none) :
    (reSearch r (titleOf d) = nullable r) ∧
    ((collectByTitle [untitled] true ["*"]).uuids = ["u0"]) ∧
    ((collectByTitle [untitled] true ["a"]).uuids = []) := by
  refine ⟨?_, by decide, by decide⟩
  unfold titleOf
  rw [hd]
  exact reSearch_empty r

/-- Witness for C10 at the pattern `*` and the untitled dashboard. -/
theorem c10_witness :
    reSearch starRegex (titleOf untitled) = nullable starRegex ∧
    nullable starRegex = true :=
  ⟨(c10_untitled ("*") starRegex untitled (by decide) rfl).1, by decide⟩

/-- A one-dashboard listing whose title `Alpha` is matched by `*`. -/
def alphaList : List Dashboard := [⟨"u1", some ("Alpha")⟩]

/-- An API over `alphaList` whose delete always succeeds. -/
def alphaApi : Api := ⟨Except.ok alphaList, fun _ => DelResult.ok⟩

/-- Claim C5 is refuted as stated: with two patterns — the invalid `[`
followed by the valid, matching `*` — and force off, the whole command
aborts at the invalid pattern: the remaining pattern does not proceed,
no confirmation is asked and no delete call is made, even though the
invalid pattern was not the only one. -/
theorem c5_counterexample :
    (compileRegex (globTranslate ("[")) = none) ∧
    (compileRegex (globTranslate ("*")) ≠ none) ∧
    ((delete_dashboards alphaApi ["[", "*"] false true false [true]).prompts = []) ∧
    ((delete_dashboards alphaApi ["[", "*"] false true false [true]).deleteCalls = []) ∧
    ((delete_dashboards alphaApi ["[", "*"] false true false [true]).log
      = [Msg.error ("Invalid pattern: [")]) := by decide

/-- Claim C5 as amended: an uncompilable pattern is skipped with an error
message — the remaining patterns still proceeding — only in force mode;
with force off, any uncompilable pattern aborts the whole command (no
prompt, no delete call, normal exit), regardless of how many other
patterns accompany it. -/
theorem c5_invalid_pattern (all : List Dashboard) (p : String) (ps pre post : List String)
    (api : Api) (answers : List Bool)
    (hbad : compileRegex (globTranslate p) = none) :
    (collectByTitle all true (p :: ps) =
      ⟨(collectByTitle all true ps).uuids,
        Msg.error ("Invalid pattern: " ++ p) :: (collectByTitle all true ps).msgs,
        (collectByTitle all true ps).aborted⟩) ∧
    ((collectByTitle all true ps).aborted = false) ∧
    ((collectByTitle all false (pre ++ p :: post)).aborted = true) ∧
    (api.listing = Except.ok all →
      delete_dashboards api (pre ++ p :: post) false true false answers =
        ⟨(collectByTitle all false (pre ++ p :: post)).msgs, [], [], 0, [], 0⟩) := by
  refine ⟨?_, collectByTitle_force_no_abort all ps,
    collectByTitle_abort_of_invalid all p hbad post pre, ?_⟩
  · simp only [collectByTitle, hbad, if_true]
  · intro hlist
    rw [delete_dashboards_ok api all hlist (pre ++ p :: post) false true false answers]
    unfold runOk
    dsimp only
    have hab : (collectUuids all (pre ++ p :: post) true false false).aborted = true := by
      rw [collectUuids_by_title]
      exact collectByTitle_abort_of_invalid all p hbad post pre
    rw [hab]
    simp [collectUuids_by_title]

/-- Witness for the amended C5: the two-pattern request `[` then `*`
against the one-dashboard listing, force off. -/
theorem c5_witness :
    delete_dashboards alphaApi ["[", "*"] false true false [] =
      ⟨(collectByTitle alphaList false ["[", "*"]).msgs, [], [], 0, [], 0⟩ :=
  (c5_invalid_pattern alphaList ("[") [] [] ["*"] alphaApi [] (by decide)).2.2.2 rfl

/-- The delete calls of a forced run are exactly the deduplicated
collected uuids, whatever the mode. -/
theorem runOk_force_deleteCalls (delf : String → DelResult) (all : List Dashboard)
    (identifiers : List String) (by_title remove_all : Bool) (answers : List Bool) :
    (runOk delf all identifiers true by_title remove_all answers).deleteCalls
      = dedupFirst (collectUuids all identifiers by_title remove_all true).uuids := by
  by_cases he : (dedupFirst (collectUuids all identifiers by_title remove_all true).uuids).isEmpty
  · rw [List.isEmpty_iff.mp he]
    simp [runOk, collectUuids_force_no_abort, he]
  · simp [runOk, collectUuids_force_no_abort, he, executeBulk_calls]

/-- The log of a forced run starts with the collection messages followed
by the duplicate notice. -/
theorem runOk_force_log_decomp (delf : String → DelResult) (all : List Dashboard)
    (identifiers : List String) (by_title remove_all : Bool) (answers : List Bool) :
    ∃ tail, (runOk delf all identifiers true by_title remove_all answers).log
      = ((collectUuids all identifiers by_title remove_all true).msgs
          ++ dupMsgs (collectUuids all identifiers by_title remove_all true).uuids
              (dedupFirst (collectUuids all identifiers by_title remove_all true).uuids))
        ++ tail := by
  by_cases he : (dedupFirst (collectUuids all identifiers by_title remove_all true).uuids).isEmpty
  · refine ⟨[Msg.warning ("No dashboards found to delete")], ?_⟩
    simp [runOk, collectUuids_force_no_abort, he]
  · refine ⟨showListMsgs all
        (dedupFirst (collectUuids all identifiers by_title remove_all true).uuids)
        true by_title remove_all
      ++ (executeBulk delf
          (dedupFirst (collectUuids all identifiers by_title remove_all true).uuids)).msgs
      ++ [summaryMsg
            (executeBulk delf
              (dedupFirst (collectUuids all identifiers by_title remove_all true).uuids)).succeeded
            (dedupFirst (collectUuids all identifiers by_title remove_all true).uuids).length
            (executeBulk delf
              (dedupFirst (collectUuids all identifiers by_title remove_all true).uuids)).failed],
      ?_⟩
    simp [runOk, collectUuids_force_no_abort, he, List.append_assoc]

/-- Claim C8 (confirmed): in every mode the resolved uuids are
deduplicated preserving first-seen order — on the spec's example
`a b a c b` resolves to `a b c` — and when duplicates were removed, a
non-fatal warning carrying their count is printed while the run
continues normally (exit status 0). -/
theorem c8_dedup (api : Api) (all : List Dashboard) (identifiers raw : List String)
    (by_title remove_all : Bool) (answers : List Bool)
    (hlist : api.listing = Except.ok all)
    (hraw : raw = (collectUuids all identifiers by_title remove_all true).uuids) :
    (dedupFirst ["a", "b", "a", "c", "b"] = ["a", "b", "c"]) ∧
    ((dedupFirst raw).Nodup ∧ (dedupFirst raw).Sublist raw
      ∧ (∀ x, x ∈ dedupFirst raw ↔ x ∈ raw)) ∧
    ((delete_dashboards api identifiers true by_title remove_all answers).deleteCalls
      = dedupFirst raw) ∧
    ((dedupFirst raw).length < raw.length →
      (Msg.warning (("Found " ++ toString (raw.length - (dedupFirst raw).length))
          ++ " duplicate dashboard UUIDs. Will process only unique UUIDs.")
        ∈ (delete_dashboards api identifiers true by_title remove_all answers).log) ∧
      (delete_dashboards api identifiers true by_title remove_all answers).exitCode = 0) := by
  subst hraw
  refine ⟨by decide,
    ⟨dedupAux_nodup _ [], dedupAux_sublist _ [], fun x => mem_dedupFirst x _⟩, ?_, ?_⟩
  · rw [delete_dashboards_ok api all hlist identifiers true by_title remove_all answers]
    exact runOk_force_deleteCalls api.del all identifiers by_title remove_all answers
  · intro hlt
    constructor
    · obtain ⟨tail, hlog⟩ :=
        runOk_force_log_decomp api.del all identifiers by_title remove_all answers
      rw [delete_dashboards_ok api all hlist identifiers true by_title remove_all answers, hlog]
      have hd : dupMsgs (collectUuids all identifiers by_title remove_all true).uuids
          (dedupFirst (collectUuids all identifiers by_title remove_all true).uuids)
          = [Msg.warning (("Found "
              ++ toString ((collectUuids all identifiers by_title remove_all true).uuids.length
                  - (dedupFirst (collectUuids all identifiers by_title remove_all true).uuids).length))
              ++ " duplicate dashboard UUIDs. Will process only unique UUIDs.")] := by
        unfold dupMsgs
        rw [if_pos hlt]
      rw [hd]
      simp
    · rw [delete_dashboards_ok api all hlist identifiers true by_title remove_all answers]
      exact runOk_exitCode api.del all identifiers true by_title remove_all answers

/-- Witness for C8: the spec's explicit-ids example, forced. -/
theorem c8_witness :
    (delete_dashboards emptyApi ["a", "b", "a", "c", "b"] true false false []).deleteCalls
      = dedupFirst (collectUuids [] ["a", "b", "a", "c", "b"] false false true).uuids :=
  (c8_dedup emptyApi [] ["a", "b", "a", "c", "b"]
    (collectUuids [] ["a", "b", "a", "c", "b"] false false true).uuids
    false false [] rfl rfl).2.2.1

/-- A dashboard of the listing whose uuid is among the targets has its
info line in the rendered list. -/
theorem renderLines_mem (all : List Dashboard) (unique : List String) (d : Dashboard)
    (hd : d ∈ all) (hu : d.uuid ∈ unique) :
    Msg.info (((("  - " ++ d.title.getD ("Untitled")) ++ " (") ++ d.uuid) ++ ")")
      ∈ renderLines all unique := by
  unfold renderLines
  exact List.mem_map_of_mem _ (List.mem_filter.mpr ⟨hd, by simpa using hu⟩)

/-- A three-dashboard listing for the remove-all scenario. -/
def threeList : List Dashboard :=
  [⟨"u1", some ("A")⟩, ⟨"u2", some ("B")⟩, ⟨"u3", some ("C")⟩]

/-- An API over `threeList` whose delete always succeeds. -/
def threeApi : Api := ⟨Except.ok threeList, fun _ => DelResult.ok⟩

/-- Claim C1 is refuted as stated: in All mode without force, one
affirmative answer to the single standard yes/no prompt — there is no
second, stronger confirmation phrase — already triggers every delete
call. -/
theorem c1_counterexample :
    ((delete_dashboards threeApi [] false false true [true]).prompts
      = ["Are you absolutely sure?"]) ∧
    ((delete_dashboards threeApi [] false false true [true]).deleteCalls
      = ["u1", "u2", "u3"]) := by decide

/-- Claim C1 as amended: in All mode without force, the command renders
the full matched list, warns that the action cannot be undone, and asks
exactly one standard yes/no confirmation ("Are you absolutely sure?");
declining it aborts with zero delete calls, while affirming that single
prompt proceeds directly to deleting every listed dashboard. -/
theorem c1_all_mode_single_prompt (api : Api) (all : List Dashboard) (answers : List Bool)
    (hlist : api.listing = Except.ok all) (hne : all ≠ []) :
    ((delete_dashboards api [] false false true answers).prompts
      = ["Are you absolutely sure?"]) ∧
    (Msg.warning ("This action cannot be undone.")
      ∈ (delete_dashboards api [] false false true answers).log) ∧
    (Msg.info ("Dashboards to delete:")
      ∈ (delete_dashboards api [] false false true answers).log) ∧
    (∀ d ∈ all,
      Msg.info (((("  - " ++ d.title.getD ("Untitled")) ++ " (") ++ d.uuid) ++ ")")
        ∈ (delete_dashboards api [] false false true answers).log) ∧
    (answers.getD 0 false = false →
      (delete_dashboards api [] false false true answers).deleteCalls = [] ∧
      (delete_dashboards api [] false false true answers).succeeded = 0 ∧
      Msg.info ("Operation cancelled")
        ∈ (delete_dashboards api [] false false true answers).log) ∧
    (answers.getD 0 false = true →
      (delete_dashboards api [] false false true answers).deleteCalls
        = dedupFirst (all.map Dashboard.uuid)) := by
  rw [delete_dashboards_ok api all hlist [] false false true answers]
  have hmap : all.map Dashboard.uuid ≠ [] := by
    cases all with
    | nil => exact absurd rfl hne
    | cons d ds => simp
  have hun : dedupFirst (all.map Dashboard.uuid) ≠ [] := dedupFirst_ne_nil _ hmap
  have hie : (dedupFirst (all.map Dashboard.uuid)).isEmpty = false := by
    cases hh : (dedupFirst (all.map Dashboard.uuid)).isEmpty
    · rfl
    · exact absurd (List.isEmpty_iff.mp hh) hun
  refine ⟨?_, ?_, ?_, ?_, ?_, ?_⟩
  · by_cases ha : answers.getD 0 false
      <;> simp only [List.getD_eq_getElem?_getD] at ha
      <;> simp [runOk, collectUuids, hie, ha, promptMsg]
  · by_cases ha : answers.getD 0 false
      <;> simp only [List.getD_eq_getElem?_getD] at ha
      <;> simp [runOk, collectUuids, hie, ha, showListMsgs]
  · by_cases ha : answers.getD 0 false
      <;> simp only [List.getD_eq_getElem?_getD] at ha
      <;> simp [runOk, collectUuids, hie, ha, showListMsgs]
  · intro d hd
    have huid : d.uuid ∈ dedupFirst (all.map Dashboard.uuid) :=
      (mem_dedupFirst _ _).mpr (List.mem_map_of_mem _ hd)
    have hmem := renderLines_mem all (dedupFirst (all.map Dashboard.uuid)) d hd huid
    by_cases ha : answers.getD 0 false
      <;> simp only [List.getD_eq_getElem?_getD] at ha
      <;> simp [runOk, collectUuids, hie, ha, showListMsgs, hmem]
  · intro ha
    simp only [List.getD_eq_getElem?_getD] at ha
    refine ⟨?_, ?_, ?_⟩ <;> simp [runOk, collectUuids, hie, ha, showListMsgs]
  · intro ha
    simp only [List.getD_eq_getElem?_getD] at ha
    simp [runOk, collectUuids, hie, ha, executeBulk_calls]

/-- Witness for the amended C1: three dashboards, remove-all, force off,
the user declines the single prompt. -/
theorem c1_witness :
    (delete_dashboards threeApi [] false false true [false]).deleteCalls = [] ∧
    (delete_dashboards threeApi [] false false true [false]).succeeded = 0 ∧
    Msg.info ("Operation cancelled")
      ∈ (delete_dashboards threeApi [] false false true [false]).log :=
  (c1_all_mode_single_prompt threeApi threeList [false] rfl (by decide)).2.2.2.2.1 rfl

end Sdm
